import Mathlib

/-!
Verification of the Diagnostic & Remediation Engine of `mcp-ansible-server`
(`src/ansible_mcp/server.py`), as a shallow embedding in Lean 4.

The embedding mirrors the Python source: dictionaries become association
lists with first-match lookup, Python numbers become rationals, machine
exceptions become `Option`/`Except` failure values, and the fixed literal
catalogues (healing actions, log pattern tables) are transcribed verbatim.
-/

namespace AnsibleMcp

/-- Values that can appear in the loosely typed metric dictionaries built by
the diagnostic code: numbers (Python int/float as rationals), strings,
booleans, and lists of strings. -/
inductive MetricValue where
  | num (q : ℚ)
  | str (s : String)
  | boolean (b : Bool)
  | strList (l : List String)
  deriving DecidableEq

/-- A Python dict with string keys, modelled as an association list; lookups
take the first matching key. -/
abbrev MetricsBag := List (String × MetricValue)

/-- Python `d.get(k)` returning `None` when the key is absent. -/
def dictGet (d : MetricsBag) (k : String) : Option MetricValue :=
  (d.find? (fun p => p.1 == k)).map Prod.snd

/-- Python `d.get(k, default)`. -/
def dictGetD (d : MetricsBag) (k : String) (v : MetricValue) : MetricValue :=
  (dictGet d k).getD v

/-- Python truthiness of a metric value (`bool(v)`): zero, the empty string,
`False` and the empty list are falsy. -/
def pyTruthy : MetricValue → Bool
  | .num q => q != 0
  | .str s => s != ""
  | .boolean b => b
  | .strList l => !l.isEmpty

/-- Coercion of a metric value to a number for an order comparison such as
`value > 90`: Python compares ints/floats and bools (as 0/1) with numbers,
and raises `TypeError` (here `none`) for strings and lists. -/
def pyNumQ : MetricValue → Option ℚ
  | .num q => some q
  | .boolean b => some (if b then 1 else 0)
  | .str _ => none
  | .strList _ => none

/-- Elements obtained by `len(v)` / iterating `v`: a list yields its items and
a string yields its characters; numbers and booleans raise (here `none`). -/
def pySeqElems : MetricValue → Option (List String)
  | .strList l => some l
  | .str s => some (s.data.map (fun c => String.mk [c]))
  | .num _ => none
  | .boolean _ => none

/-! ## Health scorer (`_calculate_health_score`, server.py lines 1031-1088) -/

/-- Result dict of `_calculate_health_score`. -/
structure HealthAssessment where
  score : Int
  level : String
  issues : List String
  recommendations : List String
  deriving DecidableEq

/-- CPU deduction branch of `_calculate_health_score`. -/
def cpuDeduction (cpu : ℚ) : Int :=
  if cpu > 90 then 30 else if cpu > 75 then 15 else 0

/-- CPU issue strings of `_calculate_health_score`. -/
def cpuIssues (cpu : ℚ) : List String :=
  if cpu > 90 then ["Critical CPU usage"]
  else if cpu > 75 then ["High CPU usage"] else []

/-- CPU recommendation strings of `_calculate_health_score`. -/
def cpuRecs (cpu : ℚ) : List String :=
  if cpu > 90 then ["Identify high CPU processes and optimize or scale"]
  else if cpu > 75 then ["Monitor CPU trends and prepare for scaling"] else []

/-- Memory deduction branch of `_calculate_health_score`. -/
def memDeduction (mem : ℚ) : Int :=
  if mem > 95 then 25 else if mem > 85 then 10 else 0

/-- Memory issue strings of `_calculate_health_score`. -/
def memIssues (mem : ℚ) : List String :=
  if mem > 95 then ["Critical memory usage"]
  else if mem > 85 then ["High memory usage"] else []

/-- Memory recommendation strings of `_calculate_health_score`. -/
def memRecs (mem : ℚ) : List String :=
  if mem > 95 then ["Free memory or add more RAM"]
  else if mem > 85 then ["Monitor memory consumption patterns"] else []

/-- Disk deduction branch of `_calculate_health_score`. -/
def diskDeduction (disk : ℚ) : Int :=
  if disk > 95 then 20 else if disk > 85 then 10 else 0

/-- Disk issue strings of `_calculate_health_score`. -/
def diskIssues (disk : ℚ) : List String :=
  if disk > 95 then ["Critical disk space"]
  else if disk > 85 then ["High disk usage"] else []

/-- Disk recommendation strings of `_calculate_health_score`. -/
def diskRecs (disk : ℚ) : List String :=
  if disk > 95 then ["Clean up files or expand storage"]
  else if disk > 85 then ["Plan for disk space expansion"] else []

/-- The boolean read `metrics.get("network_reachable", True)` used by the
network-connectivity branch of `_calculate_health_score`; an absent key
defaults to `True`, a present value is tested for truthiness
(`if not metrics.get(...)`). -/
def networkReachableFlag (metrics : MetricsBag) : Bool :=
  match dictGet metrics "network_reachable" with
  | some v => pyTruthy v
  | none => true

/-- Score, issues and recommendations accumulated by
`_calculate_health_score` before the final dict is assembled; `none` models a
`TypeError` raised by comparing a non-numeric metric value. -/
def healthParts (metrics : MetricsBag) : Option (Int × List String × List String) :=
  match pyNumQ (dictGetD metrics "cpu_percent" (.num 0)),
        pyNumQ (dictGetD metrics "memory_percent" (.num 0)),
        pyNumQ (dictGetD metrics "disk_usage_percent" (.num 0)),
        (if pyTruthy (dictGetD metrics "failed_services" (.strList [])) then
           pySeqElems (dictGetD metrics "failed_services" (.strList []))
         else some []) with
  | some cpu, some mem, some disk, some failed_services =>
    let reachable := networkReachableFlag metrics
    some
      (100 - cpuDeduction cpu - memDeduction mem - diskDeduction disk
         - (failed_services.length : Int) * 15 - (if reachable then 0 else 20),
       cpuIssues cpu ++ memIssues mem ++ diskIssues disk
         ++ failed_services.map (fun svc => "Service " ++ svc ++ " is failed")
         ++ (if reachable then [] else ["Network connectivity issues"]),
       cpuRecs cpu ++ memRecs mem ++ diskRecs disk
         ++ failed_services.map (fun svc => "Investigate and restart " ++ svc)
         ++ (if reachable then [] else ["Check network configuration and connectivity"]))
  | _, _, _, _ => none

/-- `_calculate_health_score(metrics)`: the returned dict clamps the score to
`max(0, score)` but computes the level from the unclamped running score. -/
def _calculate_health_score (metrics : MetricsBag) : Option HealthAssessment :=
  (healthParts metrics).map fun p =>
    { score := max 0 p.1
      level := if p.1 < (50 : Int) then "critical"
               else if p.1 < (80 : Int) then "warning" else "healthy"
      issues := p.2.1
      recommendations := p.2.2 }

/-! ## Python string primitives

String operations of the source (`str.strip`, `str.split`, `str.lower`,
`str.splitlines`, substring search) implemented over character lists so that
every definition evaluates by kernel reduction. -/

/-- Whitespace characters removed by Python `str.strip()`. -/
def isPySpace (c : Char) : Bool :=
  c == ' ' || c == '\t' || c == '\n' || c == '\r' || c == '\x0b' || c == '\x0c'

/-- Python `s.strip()`. -/
def pyStrip (s : String) : String :=
  String.mk (((s.data.dropWhile isPySpace).reverse.dropWhile isPySpace).reverse)

/-- Split a character list at every occurrence of `sep`, keeping empty
pieces, as Python `str.split(sep)` does for a one-character separator. -/
def splitCharList (sep : Char) : List Char → List (List Char)
  | [] => [[]]
  | c :: t =>
    match splitCharList sep t with
    | [] => if c == sep then [[], []] else [[c]]
    | h :: r => if c == sep then [] :: h :: r else (c :: h) :: r

/-- Python `s.split(sep)` for a one-character separator. -/
def pySplit (sep : Char) (s : String) : List String :=
  (splitCharList sep s.data).map String.mk

/-- Python `s.splitlines()` for newline-separated text: like splitting on
`\n` but without a trailing empty piece when the text ends in a newline. -/
def pySplitlines (s : String) : List String :=
  let l := pySplit '\n' s
  if l.getLast? = some "" then l.dropLast else l

/-- Python `s.lower()` for the ASCII text handled here. -/
def pyLower (s : String) : String :=
  String.mk (s.data.map Char.toLower)

/-- Whether `needle` occurs as a contiguous substring of `hay`
(Python `needle in hay`, `re.search` on a literal pattern). -/
def containsSub (hay needle : String) : Bool :=
  go hay.data needle.data
where
  /-- Scan every suffix of the haystack for the needle as a prefix. -/
  go : List Char → List Char → Bool
  | h, n => n.isPrefixOf h || match h with
    | [] => false
    | _ :: t => go t n

/-! ## Diagnostic orchestrator (`ansible_diagnose_host`, server.py lines 1300-1396) -/

/-- Result of one remote probe as consumed by the engine: `ok` mirrors the
command's success flag and `stdout` its captured standard output
(an absent stdout is the empty string). -/
structure ProbeResult where
  ok : Bool
  stdout : String
  deriving DecidableEq

/-- System-check category dict of `ansible_diagnose_host`: the probe output is
parsed into three floats (disk, memory, cpu); `parsed = none` models the
`ValueError`/`IndexError` caught there, which degrades the category to an
error marker, as does a failed probe. -/
def systemCheckMetrics (probeOk : Bool) (parsed : Option (ℚ × ℚ × ℚ)) : MetricsBag :=
  if probeOk then
    match parsed with
    | some q => [("disk_usage_percent", .num q.1),
                 ("memory_percent", .num q.2.1),
                 ("cpu_percent", .num q.2.2)]
    | none => [("error", .str "Failed to parse system metrics")]
  else [("error", .str "Failed to gather system metrics")]

/-- Network-check category dict of `ansible_diagnose_host`: the reachability
boolean is stored under the key `internet_reachable`. -/
def networkCheckMetrics (r : ProbeResult) : MetricsBag :=
  [("internet_reachable", .boolean (if r.ok then pyStrip r.stdout == "reachable" else false))]

/-- Security-check category dict of `ansible_diagnose_host`: the first two
lines of the probe output, or `"unknown"`. -/
def securityCheckMetrics (r : ProbeResult) : MetricsBag :=
  [("recent_logins",
    .str (if r.ok then ((pySplit '\n' (pyStrip r.stdout)).headD "") else "unknown")),
   ("network_services",
    .str (if r.ok && decide (1 < (pySplit '\n' (pyStrip r.stdout)).length) then
            ((pySplit '\n' (pyStrip r.stdout)).getD 1 "")
          else "unknown"))]

/-- Performance-check category dict of `ansible_diagnose_host`. -/
def performanceCheckMetrics (r : ProbeResult) : MetricsBag :=
  [("load_average", .str (if r.ok then pyStrip r.stdout else "unknown"))]

/-- Inputs of one `ansible_diagnose_host` call, at the boundary where probe
outputs have been parsed: the selected check names and each category's raw
probe outcome. -/
structure DiagnoseInputs where
  checkTypes : List String
  systemOk : Bool
  systemParsed : Option (ℚ × ℚ × ℚ)
  networkProbe : ProbeResult
  securityProbe : ProbeResult
  performanceProbe : ProbeResult
  deriving DecidableEq

/-- The `diagnosis["checks"]` dict: category dicts in insertion order, present
only when the category name occurs in the selected check types. -/
def diagnoseChecks (inp : DiagnoseInputs) : List (String × MetricsBag) :=
  (if "system" ∈ inp.checkTypes then
     [("system", systemCheckMetrics inp.systemOk inp.systemParsed)] else [])
  ++ (if "network" ∈ inp.checkTypes then
       [("network", networkCheckMetrics inp.networkProbe)] else [])
  ++ (if "security" ∈ inp.checkTypes then
       [("security", securityCheckMetrics inp.securityProbe)] else [])
  ++ (if "performance" ∈ inp.checkTypes then
       [("performance", performanceCheckMetrics inp.performanceProbe)] else [])

/-- Python `a.update(b)`: entries of `b` override entries of `a`; existing
keys keep their position and new keys are appended. -/
def dictUpdate (a b : MetricsBag) : MetricsBag :=
  a.filter (fun p => !(b.map Prod.fst).contains p.1) ++ b

/-- The merged `all_metrics` dict of `ansible_diagnose_host`: category dicts
without an `error` key are merged in order and fed to the health scorer. -/
def diagnoseAllMetrics (inp : DiagnoseInputs) : MetricsBag :=
  (diagnoseChecks inp).foldl
    (fun acc c => if (dictGet c.2 "error").isSome then acc else dictUpdate acc c.2) []


/-! ## Auto-heal planner (`ansible_auto_heal`, server.py lines 1549-1645) -/

/-- One entry of the fixed symptom-to-action catalogue of
`ansible_auto_heal`. -/
structure HealingAction where
  symptom : String
  action : String
  impact : String
  command : String
  safety_check : String
  description : String
  deriving DecidableEq

/-- The symptom-to-solution mapping built by `ansible_auto_heal`: a literal
if/elif chain over each symptom string; unknown symptoms add nothing. -/
def healingActionsFor (symptoms : List String) : List HealingAction :=
  symptoms.foldl
    (fun acc symptom =>
      if symptom = "high_cpu" then
        acc ++ [{ symptom := symptom,
                  action := "restart_high_cpu_processes",
                  impact := "medium",
                  command := "kill -9 $(ps aux --sort=-%cpu | head -6 | tail -5 | awk \x27\x7bprint $2\x7d\x27)",
                  safety_check := "ps aux --sort=-%cpu | head -6",
                  description := "Terminate top 5 CPU-consuming processes" }]
      else if symptom = "high_memory" then
        acc ++ [{ symptom := symptom,
                  action := "clear_cache",
                  impact := "low",
                  command := "sync && echo 3 > /proc/sys/vm/drop_caches",
                  safety_check := "free -m",
                  description := "Clear system cache to free memory" }]
      else if symptom = "disk_full" then
        acc ++ [{ symptom := symptom,
                  action := "cleanup_temp_files",
                  impact := "low",
                  command := "find /tmp -type f -atime +7 -delete && find /var/log -name \x27*.log\x27 -size +100M -delete",
                  safety_check := "df -h",
                  description := "Clean up old temporary files and large logs" }]
      else if symptom = "service_failed" then
        acc ++ [{ symptom := symptom,
                  action := "restart_failed_services",
                  impact := "medium",
                  command := "systemctl reset-failed && systemctl restart $(systemctl --failed --no-legend | awk \x27\x7bprint $1\x7d\x27)",
                  safety_check := "systemctl --failed",
                  description := "Restart all failed services" }]
      else acc)
    []

/-- Python `max_impact or "low"`: `None` and the empty string fall back to
`"low"`. -/
def pyOrLow : Option String → String
  | none => "low"
  | some s => if s = "" then "low" else s

/-- The `impact_hierarchy` dict lookup `{"low": 1, "medium": 2, "high": 3}`
with default 1 for any other string. -/
def impact_hierarchy (s : String) : Nat :=
  if s = "low" then 1 else if s = "medium" then 2 else if s = "high" then 3 else 1

/-- The `allowed_actions` filter of `ansible_auto_heal`: an action passes iff
its impact level does not exceed the requested ceiling. -/
def allowedActions (symptoms : List String) (max_impact : Option String) :
    List HealingAction :=
  (healingActionsFor symptoms).filter
    (fun a => impact_hierarchy a.impact ≤ impact_hierarchy (pyOrLow max_impact))

/-- One element of `execution_results`: the recorded safety-check and healing
command outcomes for an executed action. -/
structure HealingExecutionRecord where
  action : HealingAction
  safety_check_result : ProbeResult
  healing_result : ProbeResult
  success : Bool
  deriving DecidableEq

/-- The execution loop of `ansible_auto_heal` (reached only when not in
dry-run): for each allowed action the safety check runs first, then the
healing command; `exec` models the remote executor. -/
def healingExecution (exec : String → ProbeResult) (allowed : List HealingAction) :
    List HealingExecutionRecord :=
  allowed.map fun a =>
    { action := a
      safety_check_result := exec a.safety_check
      healing_result := exec a.command
      success := (exec a.command).ok }

/-- The sequence of remote commands the execution loop issues, in order. -/
def healingCommandsIssued (allowed : List HealingAction) : List String :=
  allowed.foldl (fun t a => t ++ [a.safety_check, a.command]) []

/-- Result dict of `ansible_auto_heal` (the fields the claims speak about),
paired with the trace of remote commands actually issued. -/
structure AutoHealResult where
  proposed_actions : List HealingAction
  blocked_actions : List HealingAction
  dry_run : Bool
  execution_results : Option (List HealingExecutionRecord)
  deriving DecidableEq

/-- `ansible_auto_heal(symptoms, max_impact, dry_run)`: builds the catalogue,
filters by impact, executes only when `dry_run` is false, and reports
`execution_results: None` in dry-run mode. The second component is the list
of commands issued against the hosts. -/
def ansible_auto_heal (exec : String → ProbeResult) (symptoms : List String)
    (max_impact : Option String) (dry_run : Bool) : AutoHealResult × List String :=
  let actions := healingActionsFor symptoms
  let allowed := allowedActions symptoms max_impact
  ({ proposed_actions := allowed
     blocked_actions := actions.filter (fun a => !(allowed.contains a))
     dry_run := dry_run
     execution_results := if dry_run then none else some (healingExecution exec allowed) },
   if dry_run then [] else healingCommandsIssued allowed)

/-! ## Python numeric parsing (`int(...)`, `float(...)`) -/

/-- Value of a digit string. -/
def digitsVal (cs : List Char) : Nat :=
  cs.foldl (fun n c => n * 10 + (c.toNat - '0'.toNat)) 0

/-- Parse a nonempty all-digit character list. -/
def pyIntDigits (cs : List Char) : Option Nat :=
  if cs.isEmpty then none
  else if cs.all Char.isDigit then some (digitsVal cs) else none

/-- Python `int(s)` on the decimal integer literals handled here: surrounding
whitespace is stripped, an optional sign is allowed, anything else raises
`ValueError` (here `none`). -/
def pyInt (s : String) : Option Int :=
  match (pyStrip s).data with
  | '+' :: cs => (pyIntDigits cs).map Int.ofNat
  | '-' :: cs => (pyIntDigits cs).map (fun n => -(n : Int))
  | cs => (pyIntDigits cs).map Int.ofNat

/-- Consume a leading optional sign, as Python's float syntax does. -/
def parseSign : List Char → Int × List Char
  | '+' :: t => (1, t)
  | '-' :: t => (-1, t)
  | t => (1, t)

/-- Split off the longest leading digit run. -/
def takeDigits : List Char → List Char × List Char
  | [] => ([], [])
  | c :: t =>
    if c.isDigit then
      let p := takeDigits t
      (c :: p.1, p.2)
    else ([], c :: t)

/-- Parse an optional exponent suffix (`e`/`E`, sign, digits); `some 0` when
absent, `none` when malformed. -/
def parseExp (cs : List Char) : Option Int :=
  match cs with
  | [] => some 0
  | 'e' :: t => expDigits t
  | 'E' :: t => expDigits t
  | _ => none
where
  /-- Digits of an explicit exponent. -/
  expDigits (t : List Char) : Option Int :=
    let p := parseSign t
    let d := takeDigits p.2
    if d.1.isEmpty || !d.2.isEmpty then none
    else some (p.1 * (digitsVal d.1 : Int))

/-- Python `float(s)` on finite decimal literals: optional sign, digits with
an optional fractional part, optional exponent; anything else (including the
special values `inf`/`nan`, which never occur in the probe outputs modelled
here) raises `ValueError` (here `none`). -/
def pyFloat (s : String) : Option ℚ :=
  let cs := (pyStrip s).data
  let sg := parseSign cs
  let ip := takeDigits sg.2
  let fr : List Char × List Char :=
    match ip.2 with
    | '.' :: t => takeDigits t
    | t => ([], t)
  if ip.1.isEmpty && fr.1.isEmpty then none
  else if !(ip.1 ++ fr.1).all Char.isDigit then none
  else
    match parseExp fr.2 with
    | none => none
    | some e =>
      let mant : ℚ := (digitsVal ip.1 : ℚ) + (digitsVal fr.1 : ℚ) / ((10 : ℚ) ^ fr.1.length)
      some ((sg.1 : ℚ) * mant * (10 : ℚ) ^ e)

/-! ## Security audit scoring (`ansible_security_audit`, server.py lines 1750-1893) -/

/-- The `security_assessment` dict produced by `ansible_security_audit`. -/
structure SecurityAssessment where
  score : Int
  level : String
  recommendations : List String
  deriving DecidableEq

/-- A counter string stored in a category dict:
`probe.get("stdout", "0").strip()`. -/
def auditCounter (stdout : Option String) : String :=
  pyStrip (stdout.getD "0")

/-- The per-category counter strings of `audit_results["categories"]`; a
category is `none` when it was not selected. Each pair holds the two strings
the source stores (only some of them are parsed by the scorer). -/
structure AuditCategories where
  packages : Option (String × String)
  permissions : Option (String × String)
  network : Option (String × String)
  config : Option (String × String)
  deriving DecidableEq

/-- Category dicts as built from the raw probe stdouts (server.py lines
1750-1855): pair order is (security_updates_available, total_updates_available),
(suid_sgid_files, world_writable_files), (open_ports, insecure_services),
(ssh_config, password_policies). -/
def auditCategoriesOfProbes (selPackages selPermissions selNetwork selConfig : Bool)
    (packageAudit outdated suid writable openPorts services ssh password : Option String) :
    AuditCategories :=
  { packages := if selPackages then
      some (auditCounter packageAudit, auditCounter outdated) else none
    permissions := if selPermissions then
      some (auditCounter suid, auditCounter writable) else none
    network := if selNetwork then
      some (auditCounter openPorts, auditCounter services) else none
    config := if selConfig then
      some (pyStrip (ssh.getD ""), auditCounter password) else none }

/-- Packages branch of the scoring loop: `int(security_updates_available)`;
a positive count deducts `min(count*5, 30)`. -/
def categoryPackagesDeduction : Option (String × String) → Option (Int × List String)
  | none => some (0, [])
  | some p =>
    match pyInt p.1 with
    | none => none
    | some u =>
      some (if u > 0 then
              (min (u * 5) 30, ["Apply " ++ toString u ++ " security updates immediately"])
            else (0, []))

/-- Permissions branch of the scoring loop: `int(world_writable_files)`;
a positive count deducts `min(count*2, 20)`. -/
def categoryPermissionsDeduction : Option (String × String) → Option (Int × List String)
  | none => some (0, [])
  | some p =>
    match pyInt p.2 with
    | none => none
    | some w =>
      some (if w > 0 then
              (min (w * 2) 20, ["Fix " ++ toString w ++ " world-writable files"])
            else (0, []))

/-- Network branch of the scoring loop: `int(insecure_services)`; a positive
count deducts `count*15`, uncapped. -/
def categoryNetworkDeduction : Option (String × String) → Option (Int × List String)
  | none => some (0, [])
  | some p =>
    match pyInt p.2 with
    | none => none
    | some i =>
      some (if i > 0 then (i * 15, ["Disable insecure network services"]) else (0, []))

/-- The report-generation block of `ansible_security_audit` (lines
1857-1886): score starts at 100, the categories are visited in insertion
order (the config category is never scored), the reported score is clamped
to `max(0, score)` while the level is derived from the unclamped score;
`none` models the uncaught `ValueError` of `int()` on a non-numeric counter. -/
def security_audit_assessment (c : AuditCategories) : Option SecurityAssessment :=
  match categoryPackagesDeduction c.packages, categoryPermissionsDeduction c.permissions,
        categoryNetworkDeduction c.network with
  | some d1, some d2, some d3 =>
    let s : Int := 100 - d1.1 - d2.1 - d3.1
    some { score := max 0 s
           level := if s < (40 : Int) then "critical"
                    else if s < (70 : Int) then "warning" else "good"
           recommendations := d1.2 ++ d2.2 ++ d3.2 }
  | _, _, _ => none

/-- Whether every counter string the scoring loop parses is an integer
literal (packages counter, world-writable counter, insecure-services
counter). -/
def auditCountersParse (c : AuditCategories) : Bool :=
  (match c.packages with | none => true | some p => (pyInt p.1).isSome) &&
  (match c.permissions with | none => true | some p => (pyInt p.2).isSome) &&
  (match c.network with | none => true | some p => (pyInt p.2).isSome)

/-! ## Health monitor sampling (`ansible_health_monitor`, server.py lines 1896-1983) -/

/-- One point of the `metrics_history` series. -/
structure MonitoringSample where
  timestamp : String
  load_average : ℚ
  memory_percent : ℚ
  disk_percent : ℚ
  deriving DecidableEq

/-- Parsing of one sample probe line (line 1931):
`stdout.strip().split(',')` unpacked into exactly four fields, the last three
through `float()`; any other shape raises `ValueError` (here `none`). -/
def parseMonitorLine (stdout : String) : Option MonitoringSample :=
  match pySplit ',' (pyStrip stdout) with
  | [ts, la, mp, dp] =>
    match pyFloat la, pyFloat mp, pyFloat dp with
    | some l, some m, some d => some ⟨ts, l, m, d⟩
    | _, _, _ => none
  | _ => none

/-- The metrics-collection loop of `ansible_health_monitor`: probes whose
`ok` flag is false are skipped silently, but a probe line that fails to
parse raises an uncaught `ValueError` that aborts the whole call. -/
def collect_metrics_history : List ProbeResult → Except String (List MonitoringSample)
  | [] => .ok []
  | p :: rest =>
    if p.ok then
      match parseMonitorLine p.stdout with
      | none => .error "ValueError"
      | some s => (collect_metrics_history rest).map (fun l => s :: l)
    else collect_metrics_history rest

/-! ## Log pattern analysis (`_analyze_log_patterns`, server.py lines 1098-1129) -/

/-- The last `n` elements of a list (Python `l[-n:]`). -/
def takeLast {α : Type} (n : Nat) (l : List α) : List α :=
  l.drop (l.length - n)

/-- Matching of the regexes used by the source (`re.search`, `grep -E`):
every pattern in the source is an alternation of literal substrings, so a
match is exactly a substring occurrence of one of the alternatives. -/
def reSearchLits (pattern : String) (s : String) : Bool :=
  (pySplit '|' pattern).any (fun lit => containsSub s lit)

/-- The fixed `(regex, category)` table of `_analyze_log_patterns`. -/
def error_patterns : List (String × String) :=
  [("ERROR|CRITICAL|FATAL", "error"),
   ("WARNING|WARN", "warning"),
   ("failed|failure|exception", "failure"),
   ("timeout|timed out", "timeout"),
   ("connection refused|connection reset", "connection"),
   ("out of memory|oom", "memory"),
   ("permission denied|access denied", "permission")]

/-- `defaultdict(int)` increment: bump an existing key in place or append a
new key with count 1. -/
def dictIncr (counts : List (String × Nat)) (k : String) : List (String × Nat) :=
  if counts.any (fun p => p.1 == k) then
    counts.map (fun p => if p.1 == k then (p.1, p.2 + 1) else p)
  else counts ++ [(k, 1)]

/-- Result dict of `_analyze_log_patterns`. -/
structure LogAnalysis where
  pattern_counts : List (String × Nat)
  recent_errors : List String
  total_lines_analyzed : Nat
  error_rate : ℚ

/-- `_analyze_log_patterns(logs)`: each of the last 1000 lines is
lower-cased and tested against every pattern of the table (note that the
upper-case alternatives are tested against the lower-cased line); every
match bumps its category counter, and matches of the error/failure/timeout
categories append the stripped original line to the recent-errors buffer,
of which the last 10 are kept. -/
def _analyze_log_patterns (logs : String) : LogAnalysis :=
  let lines := pySplitlines logs
  let considered := takeLast 1000 lines
  let acc := considered.foldl
    (fun (acc : List (String × Nat) × List String) line =>
      let line_lower := pyLower line
      error_patterns.foldl
        (fun acc2 pc =>
          if reSearchLits pc.1 line_lower then
            (dictIncr acc2.1 pc.2,
             if pc.2 == "error" || pc.2 == "failure" || pc.2 == "timeout" then
               acc2.2 ++ [pyStrip line]
             else acc2.2)
          else acc2)
        acc)
    ([], [])
  { pattern_counts := acc.1
    recent_errors := takeLast 10 acc.2
    total_lines_analyzed := min 1000 lines.length
    error_rate := ((acc.1.map Prod.snd).sum : ℚ) / (max 1 considered.length : ℚ) * 100 }

/-! ## Timestamp extraction (`_extract_timestamp_from_log`, server.py lines 2218-2240) -/

/-- A `datetime.datetime` value at second precision. -/
structure PyDateTime where
  year : Int
  month : Nat
  day : Nat
  hour : Nat
  minute : Nat
  second : Nat
  deriving DecidableEq

/-- Gregorian leap year. -/
def isLeapYear (y : Int) : Bool :=
  y % 4 == 0 && (y % 100 != 0 || y % 400 == 0)

/-- Days in a month of the proleptic Gregorian calendar. -/
def daysInMonth (y : Int) (m : Nat) : Nat :=
  if m == 2 then (if isLeapYear y then 29 else 28)
  else if m == 4 || m == 6 || m == 9 || m == 11 then 30 else 31

/-- Day number of a civil date (days since 1970-01-01, the standard
era-based algorithm), used to give timestamp subtraction in seconds the
`datetime` semantics. -/
def daysFromCivil (y : Int) (m d : Nat) : Int :=
  let y2 : Int := if m ≤ 2 then y - 1 else y
  let era : Int := (if 0 ≤ y2 then y2 else y2 - 399) / 400
  let yoe : Int := y2 - era * 400
  let doy : Int := (153 * ((m : Int) + (if 2 < m then -3 else 9)) + 2) / 5 + (d : Int) - 1
  let doe : Int := yoe * 365 + yoe / 4 - yoe / 100 + doy
  era * 146097 + doe - 719468

/-- A timestamp as seconds since the epoch; differences of these are the
`(a - b).total_seconds()` the correlation windows compare. -/
def toSeconds (t : PyDateTime) : Int :=
  daysFromCivil t.year t.month t.day * 86400
    + (t.hour : Int) * 3600 + (t.minute : Int) * 60 + (t.second : Int)

/-- Field ranges accepted by the `datetime` constructor and the `strptime`
format directives used here; out-of-range fields make `strptime` raise,
which `_extract_timestamp_from_log` catches and turns into `None`. -/
def validDateTime (t : PyDateTime) : Bool :=
  1 ≤ t.year && t.year ≤ 9999 &&
  1 ≤ t.month && t.month ≤ 12 &&
  1 ≤ t.day && t.day ≤ daysInMonth t.year t.month &&
  t.hour ≤ 23 && t.minute ≤ 59 && t.second ≤ 59

/-- Shape of the ISO regex `\d{4}-\d{2}-\d{2} \d{2}:\d{2}:\d{2}` on a
19-character window. -/
def isoShape (cs : List Char) : Bool :=
  match cs with
  | [y1, y2, y3, y4, s1, m1, m2, s2, d1, d2, sp, h1, h2, c1, n1, n2, c2, e1, e2] =>
    y1.isDigit && y2.isDigit && y3.isDigit && y4.isDigit && s1 == '-' &&
    m1.isDigit && m2.isDigit && s2 == '-' && d1.isDigit && d2.isDigit &&
    sp == ' ' && h1.isDigit && h2.isDigit && c1 == ':' && n1.isDigit && n2.isDigit &&
    c2 == ':' && e1.isDigit && e2.isDigit
  | _ => false

/-- Leftmost occurrence of the ISO timestamp regex (`re.search` scans
positions left to right). -/
def findISO : List Char → Option (List Char)
  | [] => none
  | c :: t =>
    if isoShape ((c :: t).take 19) then some ((c :: t).take 19)
    else findISO t

/-- A word character of the regex `\w` (ASCII). -/
def isWordChar (c : Char) : Bool :=
  c.isAlphanum || c == '_'

/-- Shape of `\d{2}:\d{2}:\d{2}` on an 8-character window. -/
def timeShape (cs : List Char) : Bool :=
  match cs with
  | [h1, h2, c1, n1, n2, c2, e1, e2] =>
    h1.isDigit && h2.isDigit && c1 == ':' && n1.isDigit && n2.isDigit &&
    c2 == ':' && e1.isDigit && e2.isDigit
  | _ => false

/-- Attempt of the syslog regex `\w{3} \d{1,2} \d{2}:\d{2}:\d{2}` at one
position, preferring the greedy two-digit day; returns the month
abbreviation, the day digits and the time digits. -/
def syslogAt (cs : List Char) : Option (List Char × List Char × List Char) :=
  match cs with
  | a :: b :: c :: ' ' :: rest =>
    if isWordChar a && isWordChar b && isWordChar c then
      match rest with
      | d1 :: d2 :: ' ' :: t =>
        if d1.isDigit && d2.isDigit && timeShape (t.take 8) then
          some ([a, b, c], [d1, d2], t.take 8)
        else syslogDayOne [a, b, c] rest
      | _ => syslogDayOne [a, b, c] rest
    else none
  | _ => none
where
  /-- Backtracking alternative with a one-digit day. -/
  syslogDayOne (mon rest : List Char) : Option (List Char × List Char × List Char) :=
    match rest with
    | d1 :: ' ' :: t =>
      if d1.isDigit && timeShape (t.take 8) then some (mon, [d1], t.take 8)
      else none
    | _ => none

/-- Leftmost occurrence of the syslog timestamp regex. -/
def findSyslog : List Char → Option (List Char × List Char × List Char)
  | [] => none
  | c :: t =>
    match syslogAt (c :: t) with
    | some r => some r
    | none => findSyslog t

/-- `%b` month-abbreviation parsing of `strptime` (case-insensitive,
C locale). -/
def monthFromAbbrev (s : String) : Option Nat :=
  let t := pyLower s
  if t == "jan" then some 1 else if t == "feb" then some 2
  else if t == "mar" then some 3 else if t == "apr" then some 4
  else if t == "may" then some 5 else if t == "jun" then some 6
  else if t == "jul" then some 7 else if t == "aug" then some 8
  else if t == "sep" then some 9 else if t == "oct" then some 10
  else if t == "nov" then some 11 else if t == "dec" then some 12
  else none

/-- `datetime.strptime(s, "%Y-%m-%d %H:%M:%S")` on an ISO regex match;
out-of-range fields raise (here `none`). -/
def parseISO (cs : List Char) : Option PyDateTime :=
  match cs with
  | [y1, y2, y3, y4, _, m1, m2, _, d1, d2, _, h1, h2, _, n1, n2, _, e1, e2] =>
    let t : PyDateTime :=
      { year := (digitsVal [y1, y2, y3, y4] : Int), month := digitsVal [m1, m2],
        day := digitsVal [d1, d2], hour := digitsVal [h1, h2],
        minute := digitsVal [n1, n2], second := digitsVal [e1, e2] }
    if validDateTime t then some t else none
  | _ => none

/-- `datetime.strptime(f"{current_year} {s}", "%Y %b %d %H:%M:%S")` on a
syslog regex match: the year is assumed to be the current year; a
non-month `\w{3}` group or out-of-range fields raise (here `none`). -/
def parseSyslog (currentYear : Int) (m : List Char × List Char × List Char) :
    Option PyDateTime :=
  match monthFromAbbrev (String.mk m.1), m.2.2 with
  | some mo, [h1, h2, _, n1, n2, _, e1, e2] =>
    let t : PyDateTime :=
      { year := currentYear, month := mo, day := digitsVal m.2.1,
        hour := digitsVal [h1, h2], minute := digitsVal [n1, n2],
        second := digitsVal [e1, e2] }
    if validDateTime t then some t else none
  | _, _ => none

/-- `_extract_timestamp_from_log(log_line)`: the ISO pattern is tried on
the whole line first, then the syslog pattern; a `strptime` failure on the
matched text is caught and yields `None` without trying further patterns.
`datetime.now().year` is passed in as `currentYear`. -/
def _extract_timestamp_from_log (currentYear : Int) (log_line : String) :
    Option PyDateTime :=
  match findISO log_line.data with
  | some m => parseISO m
  | none =>
    match findSyslog log_line.data with
    | some m => parseSyslog currentYear m
    | none => none

/-! ## Log hunter correlation (`ansible_log_hunter`, server.py lines 2098-2215) -/

/-- One entry of `all_matches`: the dict always carries the `timestamp`
key (possibly `None`), so the `.get("timestamp", "")` sort default never
applies. -/
structure LogMatch where
  log_file : String
  pattern : String
  line : String
  timestamp : Option PyDateTime
  deriving DecidableEq

/-- The matches contributed to `all_matches` by one (log, pattern) search:
`grep -E pattern log | tail -100` on the log's lines, split back from
stdout; an empty stdout contributes nothing. -/
def huntMatches (currentYear : Int) (log_file pattern : String)
    (fileLines : List String) : List LogMatch :=
  let ms := takeLast 100 (fileLines.filter (fun l => reSearchLits pattern l))
  if ms.isEmpty then []
  else ms.map (fun line =>
    { log_file := log_file, pattern := pattern, line := line,
      timestamp := _extract_timestamp_from_log currentYear line })

/-- One correlated cluster of the hunt result. -/
structure CorrelatedCluster where
  primary_event : LogMatch
  related_events : List LogMatch
  correlation_strength : Nat
  deriving DecidableEq

/-- Sort key of the correlation sort; meaningful only on matches whose
timestamp parsed (the sort raises before this is ever used otherwise). -/
def matchSortKey (m : LogMatch) : Int :=
  (m.timestamp.map toSeconds).getD 0

/-- Stable insertion preserving the relative order of equal keys, as
Python's `sorted` does. -/
def insertByTimestamp (x : LogMatch) : List LogMatch → List LogMatch
  | [] => [x]
  | y :: t =>
    if matchSortKey y ≤ matchSortKey x then y :: insertByTimestamp x t
    else x :: y :: t

/-- `sorted(all_matches, key=...)` on matches whose timestamps all parsed. -/
def sortMatchesByTimestamp (ms : List LogMatch) : List LogMatch :=
  ms.foldl (fun acc x => insertByTimestamp x acc) []

/-- The events of `sorted_matches[i+1:]` within the correlation window of a
primary at `t` seconds (`abs((event_time - other_time).total_seconds()) <=
correlation_window`); events without a timestamp are skipped. -/
def relatedWithin (t : Int) (window : Int) (rest : List LogMatch) : List LogMatch :=
  rest.filter (fun o =>
    match o.timestamp with
    | some ot => decide (|t - toSeconds ot| ≤ window)
    | none => false)

/-- The correlation loop over the sorted matches: each match with a parsed
timestamp becomes a primary, collecting later matches inside the window; a
cluster is emitted only when at least one related event was found, with
`correlation_strength = 1 + |related|`. -/
def clustersOf : List LogMatch → Int → List CorrelatedCluster
  | [], _ => []
  | e :: rest, w =>
    (match e.timestamp with
     | none => []
     | some t =>
       let rel := relatedWithin (toSeconds t) w rest
       if rel.isEmpty then []
       else [{ primary_event := e, related_events := rel,
               correlation_strength := 1 + rel.length }])
    ++ clustersOf rest w

/-- The event-correlation step of `ansible_log_hunter`: nothing is
correlated for at most one match; otherwise the matches are sorted by the
key `x.get("timestamp", "")`, which is the parsed timestamp or `None` —
and `sorted` comparing `None` with a `datetime` (or `None`) raises an
uncaught `TypeError` whenever any timestamp failed to parse. -/
def correlate_events (ms : List LogMatch) (window : Int) :
    Except String (List CorrelatedCluster) :=
  if 1 < ms.length then
    if ms.any (fun m => m.timestamp.isNone) then
      .error "TypeError: unorderable types in sort key"
    else .ok (clustersOf (sortMatchesByTimestamp ms) window)
  else .ok []

/-- The reported `correlations` field: the first ten clusters. -/
def log_hunter_correlations (ms : List LogMatch) (window : Int) :
    Except String (List CorrelatedCluster) :=
  (correlate_events ms window).map (fun l => l.take 10)

example : pyStrip "  a b\n" = "a b" := by decide
example : pySplit ',' "a,,b" = ["a", "", "b"] := by decide
example : pySplitlines "a\nb\n" = ["a", "b"] := by decide
example : pySplitlines "" = [] := by decide
example : pyLower "2024 ERROR Disk" = "2024 error disk" := by decide
example : containsSub "xx connection reset yy" "connection reset" = true := by decide
example : containsSub "error" "ERROR" = false := by decide

example :
    diagnoseAllMetrics
      { checkTypes := ["system", "network", "security", "performance"],
        systemOk := true, systemParsed := some (97, 90, 50),
        networkProbe := ⟨true, "unreachable"⟩,
        securityProbe := ⟨true, "4\n2"⟩,
        performanceProbe := ⟨true, "0.5 0.4 0.3"⟩ } =
      [("disk_usage_percent", .num 97), ("memory_percent", .num 90),
       ("cpu_percent", .num 50), ("internet_reachable", .boolean false),
       ("recent_logins", .str "4"), ("network_services", .str "2"),
       ("load_average", .str "0.5 0.4 0.3")] := by
  decide

example :
    _calculate_health_score
      (diagnoseAllMetrics
        { checkTypes := ["system", "network"],
          systemOk := true, systemParsed := some (97, 90, 50),
          networkProbe := ⟨true, "unreachable"⟩,
          securityProbe := ⟨true, "4\n2"⟩,
          performanceProbe := ⟨true, "0.5 0.4 0.3"⟩ }) =
      some { score := 70, level := "warning",
             issues := ["High memory usage", "Critical disk space"],
             recommendations := ["Monitor memory consumption patterns",
                                 "Clean up files or expand storage"] } := by
  decide

/-- Neither the conditions nor the deduction amounts of `_calculate_health_score`
ever add to the score: each branch deducts a nonnegative amount from 100. -/
theorem healthParts_score_le (m : MetricsBag) (p : Int × List String × List String)
    (h : healthParts m = some p) : p.1 ≤ 100 := by
  unfold healthParts at h
  split at h
  case _ cpu mem disk fs _ _ _ _ =>
    have h1 : 0 ≤ cpuDeduction cpu := by unfold cpuDeduction; split_ifs <;> omega
    have h2 : 0 ≤ memDeduction mem := by unfold memDeduction; split_ifs <;> omega
    have h3 : 0 ≤ diskDeduction disk := by unfold diskDeduction; split_ifs <;> omega
    have h5 : 0 ≤ (if networkReachableFlag m then (0 : Int) else 20) := by split <;> omega
    have h4 : 0 ≤ (fs.length : Int) * 15 := by positivity
    injection h with h
    rw [← h]
    dsimp only
    omega
  case _ => exact absurd h (by simp)

/-- Case analysis relating the level string of `_calculate_health_score`
(computed from the raw running score) to the clamped reported score. -/
theorem healthLevelCases (raw : Int) :
    (((if raw < (50 : Int) then "critical"
       else if raw < (80 : Int) then "warning" else "healthy") = "critical") ↔
        max 0 raw < 50) ∧
    (((if raw < (50 : Int) then "critical"
       else if raw < (80 : Int) then "warning" else "healthy") = "warning") ↔
        50 ≤ max 0 raw ∧ max 0 raw < 80) ∧
    (((if raw < (50 : Int) then "critical"
       else if raw < (80 : Int) then "warning" else "healthy") = "healthy") ↔
        80 ≤ max 0 raw) := by
  have hub : raw ≤ max 0 raw := le_max_right 0 raw
  by_cases h1 : raw < (50 : Int)
  · simp only [if_pos h1]
    refine ⟨⟨fun _ => max_lt (by norm_num) h1, fun _ => trivial⟩, ?_, ?_⟩
    · constructor
      · intro hh; exact absurd hh (by decide)
      · rintro ⟨h50, -⟩; rcases le_max_iff.mp h50 with h | h <;> omega
    · constructor
      · intro hh; exact absurd hh (by decide)
      · intro h80; rcases le_max_iff.mp h80 with h | h <;> omega
  · by_cases h2 : raw < (80 : Int)
    · simp only [if_neg h1, if_pos h2]
      refine ⟨?_, ⟨fun _ => ⟨by omega, max_lt (by norm_num) h2⟩, fun _ => trivial⟩, ?_⟩
      · constructor
        · intro hh; exact absurd hh (by decide)
        · intro hlt; omega
      · constructor
        · intro hh; exact absurd hh (by decide)
        · intro h80; rcases le_max_iff.mp h80 with h | h <;> omega
    · simp only [if_neg h1, if_neg h2]
      refine ⟨?_, ?_, ⟨fun _ => le_max_of_le_right (by omega), fun _ => trivial⟩⟩
      · constructor
        · intro hh; exact absurd hh (by decide)
        · intro hlt; omega
      · constructor
        · intro hh; exact absurd hh (by decide)
        · rintro ⟨-, h80⟩; omega

/-- C1: for every metrics bag accepted by the health scorer, the returned
level is exactly `critical` iff the reported score is below 50, `warning` iff
it is at least 50 and below 80, and `healthy` otherwise — a non-overlapping
threshold function of the score. -/
theorem health_level_thresholds (m : MetricsBag) (a : HealthAssessment)
    (h : _calculate_health_score m = some a) :
    (a.level = "critical" ↔ a.score < 50) ∧
    (a.level = "warning" ↔ 50 ≤ a.score ∧ a.score < 80) ∧
    (a.level = "healthy" ↔ 80 ≤ a.score) := by
  unfold _calculate_health_score at h
  cases hp : healthParts m with
  | none => rw [hp] at h; simp at h
  | some p =>
    rw [hp] at h
    simp only [Option.map_some', Option.some.injEq] at h
    subst h
    exact healthLevelCases p.1

/-- Witness: the C1 threshold relation evaluated on a concrete metrics bag. -/
theorem health_level_thresholds_witness :
    (((100 : Int) ≥ 80) ∧
      _calculate_health_score [] =
        some { score := 100, level := "healthy", issues := [], recommendations := [] }) ∧
    ((({ score := 100, level := "healthy", issues := [],
         recommendations := [] } : HealthAssessment).level = "critical" ↔
        ({ score := 100, level := "healthy", issues := [],
           recommendations := [] } : HealthAssessment).score < 50) ∧
     (({ score := 100, level := "healthy", issues := [],
         recommendations := [] } : HealthAssessment).level = "warning" ↔
        50 ≤ ({ score := 100, level := "healthy", issues := [],
                recommendations := [] } : HealthAssessment).score ∧
          ({ score := 100, level := "healthy", issues := [],
             recommendations := [] } : HealthAssessment).score < 80) ∧
     (({ score := 100, level := "healthy", issues := [],
         recommendations := [] } : HealthAssessment).level = "healthy" ↔
        80 ≤ ({ score := 100, level := "healthy", issues := [],
                recommendations := [] } : HealthAssessment).score)) :=
  ⟨⟨by decide, by decide⟩, health_level_thresholds [] _ (by decide)⟩

/-- C2: the health scorer is a pure function of the metrics bag, and every
assessment it returns carries a score in the interval `[0, 100]`. -/
theorem health_score_pure_and_bounded :
    (∀ m : MetricsBag, _calculate_health_score m = _calculate_health_score m) ∧
    (∀ (m : MetricsBag) (a : HealthAssessment), _calculate_health_score m = some a →
      0 ≤ a.score ∧ a.score ≤ 100) := by
  refine ⟨fun _ => rfl, fun m a h => ?_⟩
  unfold _calculate_health_score at h
  cases hp : healthParts m with
  | none => rw [hp] at h; simp at h
  | some p =>
    rw [hp] at h
    simp only [Option.map_some', Option.some.injEq] at h
    have hle := healthParts_score_le m p hp
    subst h
    exact ⟨le_max_left 0 p.1, max_le_iff.mpr ⟨by norm_num, hle⟩⟩

/-- Witness: the C2 score bound evaluated on a concrete metrics bag. -/
theorem health_score_pure_and_bounded_witness :
    ∃ a : HealthAssessment,
      _calculate_health_score
          [("cpu_percent", MetricValue.num 92), ("memory_percent", MetricValue.num 90)] =
        some a ∧ 0 ≤ a.score ∧ a.score ≤ 100 :=
  ⟨{ score := 60, level := "warning",
     issues := ["Critical CPU usage", "High memory usage"],
     recommendations := ["Identify high CPU processes and optimize or scale",
                         "Monitor memory consumption patterns"] },
   by decide,
   health_score_pure_and_bounded.2
     [("cpu_percent", MetricValue.num 92), ("memory_percent", MetricValue.num 90)]
     { score := 60, level := "warning",
       issues := ["Critical CPU usage", "High memory usage"],
       recommendations := ["Identify high CPU processes and optimize or scale",
                           "Monitor memory consumption patterns"] } (by decide)⟩

example :
    _calculate_health_score
      [("failed_services", .strList ["a", "b", "c", "d"]), ("cpu_percent", .num 92)] =
      some { score := 10, level := "critical",
             issues := ["Critical CPU usage", "Service a is failed", "Service b is failed",
                        "Service c is failed", "Service d is failed"],
             recommendations := ["Identify high CPU processes and optimize or scale",
                                 "Investigate and restart a", "Investigate and restart b",
                                 "Investigate and restart c", "Investigate and restart d"] } := by
  decide

/-- A key with no entry in an association list looks up to `None`. -/
theorem dictGet_none (d : MetricsBag) (k : String) (h : ∀ p ∈ d, p.1 ≠ k) :
    dictGet d k = none := by
  simp only [dictGet, Option.map_eq_none', List.find?_eq_none]
  intro p hp
  simpa using h p hp

/-- Entries of a dict update come from one of the two dicts. -/
theorem mem_dictUpdate {a b : MetricsBag} {p : String × MetricValue}
    (h : p ∈ dictUpdate a b) : p ∈ a ∨ p ∈ b := by
  unfold dictUpdate at h
  rcases List.mem_append.mp h with h | h
  · exact Or.inl (List.mem_of_mem_filter h)
  · exact Or.inr h

/-- Entries of the merged diagnosis metrics come from one of the category
dicts. -/
theorem mem_diagnoseAllMetrics {inp : DiagnoseInputs} {p : String × MetricValue}
    (h : p ∈ diagnoseAllMetrics inp) : ∃ c ∈ diagnoseChecks inp, p ∈ c.2 := by
  unfold diagnoseAllMetrics at h
  have main : ∀ (l : List (String × MetricsBag)) (acc : MetricsBag),
      p ∈ l.foldl
        (fun acc c => if (dictGet c.2 "error").isSome then acc else dictUpdate acc c.2) acc →
      p ∈ acc ∨ ∃ c ∈ l, p ∈ c.2 := by
    intro l
    induction l with
    | nil => exact fun acc h => Or.inl h
    | cons c t ih =>
      intro acc h
      simp only [List.foldl_cons] at h
      rcases ih _ h with h' | ⟨c', hc', hp'⟩
      · split at h'
        · exact Or.inl h'
        · rcases mem_dictUpdate h' with h'' | h''
          · exact Or.inl h''
          · exact Or.inr ⟨c, List.mem_cons_self _ _, h''⟩
      · exact Or.inr ⟨c', List.mem_cons_of_mem _ hc', hp'⟩
  rcases main _ _ h with h' | h'
  · simp at h'
  · exact h'

/-- Keys stored by the system category of `ansible_diagnose_host`. -/
theorem systemCheckMetrics_keys {ok : Bool} {parsed : Option (ℚ × ℚ × ℚ)}
    {p : String × MetricValue} (hp : p ∈ systemCheckMetrics ok parsed) :
    p.1 ≠ "network_reachable" ∧ p.1 ≠ "failed_services" := by
  unfold systemCheckMetrics at hp
  split at hp
  · split at hp
    · simp only [List.mem_cons, List.not_mem_nil, or_false] at hp
      rcases hp with hp | hp | hp <;> subst hp <;> exact ⟨by simp, by simp⟩
    · simp only [List.mem_cons, List.not_mem_nil, or_false] at hp
      subst hp
      exact ⟨by simp, by simp⟩
  · simp only [List.mem_cons, List.not_mem_nil, or_false] at hp
    subst hp
    exact ⟨by simp, by simp⟩

/-- Keys stored by the network category of `ansible_diagnose_host`: the
reachability boolean lives under `internet_reachable`. -/
theorem networkCheckMetrics_keys {r : ProbeResult} {p : String × MetricValue}
    (hp : p ∈ networkCheckMetrics r) :
    p.1 ≠ "network_reachable" ∧ p.1 ≠ "failed_services" := by
  unfold networkCheckMetrics at hp
  simp only [List.mem_cons, List.not_mem_nil, or_false] at hp
  subst hp
  exact ⟨by simp, by simp⟩

/-- Keys stored by the security category of `ansible_diagnose_host`. -/
theorem securityCheckMetrics_keys {r : ProbeResult} {p : String × MetricValue}
    (hp : p ∈ securityCheckMetrics r) :
    p.1 ≠ "network_reachable" ∧ p.1 ≠ "failed_services" := by
  unfold securityCheckMetrics at hp
  simp only [List.mem_cons, List.not_mem_nil, or_false] at hp
  rcases hp with hp | hp <;> subst hp <;> exact ⟨by simp, by simp⟩

/-- Keys stored by the performance category of `ansible_diagnose_host`. -/
theorem performanceCheckMetrics_keys {r : ProbeResult} {p : String × MetricValue}
    (hp : p ∈ performanceCheckMetrics r) :
    p.1 ≠ "network_reachable" ∧ p.1 ≠ "failed_services" := by
  unfold performanceCheckMetrics at hp
  simp only [List.mem_cons, List.not_mem_nil, or_false] at hp
  subst hp
  exact ⟨by simp, by simp⟩

/-- No category dict of `ansible_diagnose_host` ever stores the keys
`network_reachable` or `failed_services` that `_calculate_health_score`
reads: the network result is stored under `internet_reachable` instead. -/
theorem diagnoseChecks_keys {inp : DiagnoseInputs} {c : String × MetricsBag}
    (hc : c ∈ diagnoseChecks inp) {p : String × MetricValue} (hp : p ∈ c.2) :
    p.1 ≠ "network_reachable" ∧ p.1 ≠ "failed_services" := by
  unfold diagnoseChecks at hc
  rcases List.mem_append.mp hc with hc' | hc4
  rcases List.mem_append.mp hc' with hc'' | hc3
  rcases List.mem_append.mp hc'' with hc1 | hc2
  · split at hc1
    · simp only [List.mem_cons, List.not_mem_nil, or_false] at hc1
      subst hc1
      exact systemCheckMetrics_keys hp
    · exact absurd hc1 (by simp)
  · split at hc2
    · simp only [List.mem_cons, List.not_mem_nil, or_false] at hc2
      subst hc2
      exact networkCheckMetrics_keys hp
    · exact absurd hc2 (by simp)
  · split at hc3
    · simp only [List.mem_cons, List.not_mem_nil, or_false] at hc3
      subst hc3
      exact securityCheckMetrics_keys hp
    · exact absurd hc3 (by simp)
  · split at hc4
    · simp only [List.mem_cons, List.not_mem_nil, or_false] at hc4
      subst hc4
      exact performanceCheckMetrics_keys hp
    · exact absurd hc4 (by simp)

/-- C10: in `ansible_diagnose_host`, the network check stores its boolean
under `internet_reachable` while the health scorer reads `network_reachable`
(defaulting to reachable), so the −20 connectivity deduction and its issue
string can never appear in the computed health score, whatever the probes
returned. -/
theorem diagnose_network_deduction_dead (inp : DiagnoseInputs) :
    (∃ b : Bool,
      dictGet (networkCheckMetrics inp.networkProbe) "internet_reachable" =
        some (.boolean b)) ∧
    networkReachableFlag (diagnoseAllMetrics inp) = true ∧
    (∀ a : HealthAssessment, _calculate_health_score (diagnoseAllMetrics inp) = some a →
      "Network connectivity issues" ∉ a.issues) := by
  have hnet : dictGet (diagnoseAllMetrics inp) "network_reachable" = none :=
    dictGet_none _ _ (fun p hp =>
      (diagnoseChecks_keys (mem_diagnoseAllMetrics hp).choose_spec.1
        (mem_diagnoseAllMetrics hp).choose_spec.2).1)
  have hfs : dictGet (diagnoseAllMetrics inp) "failed_services" = none :=
    dictGet_none _ _ (fun p hp =>
      (diagnoseChecks_keys (mem_diagnoseAllMetrics hp).choose_spec.1
        (mem_diagnoseAllMetrics hp).choose_spec.2).2)
  have hflag : networkReachableFlag (diagnoseAllMetrics inp) = true := by
    unfold networkReachableFlag
    rw [hnet]
  refine ⟨⟨_, rfl⟩, hflag, ?_⟩
  intro a ha
  have hd : dictGetD (diagnoseAllMetrics inp) "failed_services" (.strList []) =
      .strList [] := by
    unfold dictGetD
    rw [hfs]
    rfl
  unfold _calculate_health_score at ha
  cases hp : healthParts (diagnoseAllMetrics inp) with
  | none => rw [hp] at ha; simp at ha
  | some p =>
    rw [hp] at ha
    simp only [Option.map_some', Option.some.injEq] at ha
    subst ha
    unfold healthParts at hp
    rw [hd] at hp
    have hred : (if pyTruthy (MetricValue.strList []) then
        pySeqElems (MetricValue.strList []) else some []) = some ([] : List String) := rfl
    rw [hred] at hp
    split at hp
    case _ cpu mem disk fs h1 h2 h3 h4 =>
      injection h4 with h4
      subst h4
      rw [hflag] at hp
      injection hp with hp
      rw [← hp]
      simp only [List.map_nil, if_true, List.append_nil]
      intro hmem
      rcases List.mem_append.mp hmem with hmem | hmem
      rcases List.mem_append.mp hmem with hmem | hmem
      · unfold cpuIssues at hmem
        split_ifs at hmem <;> exact absurd hmem (by decide)
      · unfold memIssues at hmem
        split_ifs at hmem <;> exact absurd hmem (by decide)
      · unfold diskIssues at hmem
        split_ifs at hmem <;> exact absurd hmem (by decide)
    case _ => exact absurd hp (by simp)

/-- Witness: the C10 dead deduction evaluated on a concrete diagnosis whose
reachability probe reports unreachable. -/
theorem diagnose_network_deduction_dead_witness :
    networkReachableFlag
        (diagnoseAllMetrics
          { checkTypes := ["system", "network", "security", "performance"],
            systemOk := true, systemParsed := some (97, 90, 50),
            networkProbe := ⟨true, "unreachable"⟩,
            securityProbe := ⟨true, "4\n2"⟩,
            performanceProbe := ⟨true, "0.5 0.4 0.3"⟩ }) = true ∧
    ∃ a : HealthAssessment,
      _calculate_health_score
          (diagnoseAllMetrics
            { checkTypes := ["system", "network", "security", "performance"],
              systemOk := true, systemParsed := some (97, 90, 50),
              networkProbe := ⟨true, "unreachable"⟩,
              securityProbe := ⟨true, "4\n2"⟩,
              performanceProbe := ⟨true, "0.5 0.4 0.3"⟩ }) = some a ∧
      "Network connectivity issues" ∉ a.issues :=
  ⟨(diagnose_network_deduction_dead
      { checkTypes := ["system", "network", "security", "performance"],
        systemOk := true, systemParsed := some (97, 90, 50),
        networkProbe := ⟨true, "unreachable"⟩,
        securityProbe := ⟨true, "4\n2"⟩,
        performanceProbe := ⟨true, "0.5 0.4 0.3"⟩ }).2.1,
   ⟨{ score := 70, level := "warning",
      issues := ["High memory usage", "Critical disk space"],
      recommendations := ["Monitor memory consumption patterns",
                          "Clean up files or expand storage"] },
    by decide,
    (diagnose_network_deduction_dead
      { checkTypes := ["system", "network", "security", "performance"],
        systemOk := true, systemParsed := some (97, 90, 50),
        networkProbe := ⟨true, "unreachable"⟩,
        securityProbe := ⟨true, "4\n2"⟩,
        performanceProbe := ⟨true, "0.5 0.4 0.3"⟩ }).2.2
      { score := 70, level := "warning",
        issues := ["High memory usage", "Critical disk space"],
        recommendations := ["Monitor memory consumption patterns",
                            "Clean up files or expand storage"] }
      (by decide)⟩⟩

/-- C3: auto-heal planning for the single symptom `high_cpu` with maxImpact
`low` and dryRun true proposes nothing and blocks exactly one action; with
maxImpact `medium` it proposes exactly one action, blocks nothing, reports no
execution results, and issues no remote command, whatever the executor would
answer. -/
theorem auto_heal_high_cpu_dry_run (exec : String → ProbeResult) :
    (ansible_auto_heal exec ["high_cpu"] (some "low") true).1.proposed_actions = [] ∧
    (ansible_auto_heal exec ["high_cpu"] (some "low") true).1.blocked_actions.length = 1 ∧
    (ansible_auto_heal exec ["high_cpu"] (some "low") true).1.execution_results = none ∧
    (ansible_auto_heal exec ["high_cpu"] (some "low") true).2 = [] ∧
    (ansible_auto_heal exec ["high_cpu"] (some "medium") true).1.proposed_actions.length = 1 ∧
    (ansible_auto_heal exec ["high_cpu"] (some "medium") true).1.blocked_actions = [] ∧
    (ansible_auto_heal exec ["high_cpu"] (some "medium") true).1.execution_results = none ∧
    (ansible_auto_heal exec ["high_cpu"] (some "medium") true).2 = [] :=
  ⟨rfl, rfl, rfl, rfl, rfl, rfl, rfl, rfl⟩

/-- C4: the impact filter of `ansible_auto_heal` is monotone; raising the
ceiling (low < medium < high in the impact hierarchy) never removes an action
from the proposed set. -/
theorem auto_heal_impact_monotone (exec : String → ProbeResult)
    (symptoms : List String) (dry_run : Bool) (lo hi : Option String)
    (h : impact_hierarchy (pyOrLow lo) ≤ impact_hierarchy (pyOrLow hi)) :
    ∀ x ∈ (ansible_auto_heal exec symptoms lo dry_run).1.proposed_actions,
      x ∈ (ansible_auto_heal exec symptoms hi dry_run).1.proposed_actions := by
  intro x hx
  have hx' : x ∈ allowedActions symptoms lo := hx
  show x ∈ allowedActions symptoms hi
  unfold allowedActions at hx' ⊢
  rw [List.mem_filter] at hx' ⊢
  refine ⟨hx'.1, ?_⟩
  have hle := of_decide_eq_true hx'.2
  exact decide_eq_true (le_trans hle h)

/-- Witness: the C4 monotonicity applied to the `high_memory` action between
the `low` and `high` ceilings. -/
theorem auto_heal_impact_monotone_witness :
    { symptom := "high_memory", action := "clear_cache", impact := "low",
      command := "sync && echo 3 > /proc/sys/vm/drop_caches",
      safety_check := "free -m",
      description := "Clear system cache to free memory" : HealingAction } ∈
      (ansible_auto_heal (fun _ => ⟨true, ""⟩) ["high_memory"] (some "high")
        true).1.proposed_actions :=
  auto_heal_impact_monotone (fun _ => ⟨true, ""⟩) ["high_memory"] true
    (some "low") (some "high") (by decide) _ (by decide)

/-- Case analysis relating the level string of `ansible_security_audit`
(computed from the unclamped running score) to the clamped reported score. -/
theorem securityLevelCases (raw : Int) :
    (((if raw < (40 : Int) then "critical"
       else if raw < (70 : Int) then "warning" else "good") = "critical") ↔
        max 0 raw < 40) ∧
    (((if raw < (40 : Int) then "critical"
       else if raw < (70 : Int) then "warning" else "good") = "warning") ↔
        40 ≤ max 0 raw ∧ max 0 raw < 70) ∧
    (((if raw < (40 : Int) then "critical"
       else if raw < (70 : Int) then "warning" else "good") = "good") ↔
        70 ≤ max 0 raw) := by
  have hub : raw ≤ max 0 raw := le_max_right 0 raw
  by_cases h1 : raw < (40 : Int)
  · simp only [if_pos h1]
    refine ⟨⟨fun _ => max_lt (by norm_num) h1, fun _ => trivial⟩, ?_, ?_⟩
    · constructor
      · intro hh; exact absurd hh (by decide)
      · rintro ⟨h40, -⟩; rcases le_max_iff.mp h40 with h | h <;> omega
    · constructor
      · intro hh; exact absurd hh (by decide)
      · intro h70; rcases le_max_iff.mp h70 with h | h <;> omega
  · by_cases h2 : raw < (70 : Int)
    · simp only [if_neg h1, if_pos h2]
      refine ⟨?_, ⟨fun _ => ⟨by omega, max_lt (by norm_num) h2⟩, fun _ => trivial⟩, ?_⟩
      · constructor
        · intro hh; exact absurd hh (by decide)
        · intro hlt; omega
      · constructor
        · intro hh; exact absurd hh (by decide)
        · intro h70; rcases le_max_iff.mp h70 with h | h <;> omega
    · simp only [if_neg h1, if_neg h2]
      refine ⟨?_, ?_, ⟨fun _ => le_max_of_le_right (by omega), fun _ => trivial⟩⟩
      · constructor
        · intro hh; exact absurd hh (by decide)
        · intro hlt; omega
      · constructor
        · intro hh; exact absurd hh (by decide)
        · rintro ⟨-, h70⟩; omega

/-- C6: given parsed per-category counters, the security audit deducts
`min(updates*5, 30)`, `min(worldWritable*2, 20)` and `insecure*15` (uncapped)
from 100, clamps the reported score at 0, and derives the level from the
thresholds 40 and 70. -/
theorem security_audit_score_formula
    (su tu suid ww op is ssh pp : String) (u w i : Int)
    (hu : pyInt su = some u) (hw : pyInt ww = some w) (hi : pyInt is = some i)
    (h0u : 0 ≤ u) (h0w : 0 ≤ w) (h0i : 0 ≤ i) :
    ∃ a : SecurityAssessment,
      security_audit_assessment
          { packages := some (su, tu), permissions := some (suid, ww),
            network := some (op, is), config := some (ssh, pp) } = some a ∧
      a.score = max 0 (100 - min (u * 5) 30 - min (w * 2) 20 - i * 15) ∧
      (a.level = "critical" ↔ a.score < 40) ∧
      (a.level = "warning" ↔ 40 ≤ a.score ∧ a.score < 70) ∧
      (a.level = "good" ↔ 70 ≤ a.score) := by
  obtain ⟨d1, hd1, hd1s⟩ :
      ∃ d, categoryPackagesDeduction (some (su, tu)) = some d ∧ d.1 = min (u * 5) 30 := by
    simp only [categoryPackagesDeduction, hu]
    refine ⟨_, rfl, ?_⟩
    split_ifs with h
    · simp
    · dsimp only
      omega
  obtain ⟨d2, hd2, hd2s⟩ :
      ∃ d, categoryPermissionsDeduction (some (suid, ww)) = some d ∧ d.1 = min (w * 2) 20 := by
    simp only [categoryPermissionsDeduction, hw]
    refine ⟨_, rfl, ?_⟩
    split_ifs with h
    · simp
    · dsimp only
      omega
  obtain ⟨d3, hd3, hd3s⟩ :
      ∃ d, categoryNetworkDeduction (some (op, is)) = some d ∧ d.1 = i * 15 := by
    simp only [categoryNetworkDeduction, hi]
    refine ⟨_, rfl, ?_⟩
    split_ifs with h
    · simp
    · dsimp only
      omega
  refine ⟨⟨max 0 (100 - d1.1 - d2.1 - d3.1),
           if (100 - d1.1 - d2.1 - d3.1) < (40 : Int) then "critical"
           else if (100 - d1.1 - d2.1 - d3.1) < (70 : Int) then "warning" else "good",
           d1.2 ++ d2.2 ++ d3.2⟩, ?_, ?_, ?_, ?_, ?_⟩
  · simp only [security_audit_assessment, hd1, hd2, hd3]
  · dsimp only
    rw [hd1s, hd2s, hd3s]
  · exact (securityLevelCases _).1
  · exact (securityLevelCases _).2.1
  · exact (securityLevelCases _).2.2

/-- Witness: the C6 score formula evaluated on concrete counters
(3 security updates, 2 world-writable files, 1 insecure service). -/
theorem security_audit_score_formula_witness :
    ∃ a : SecurityAssessment,
      security_audit_assessment
          { packages := some ("3", "9"), permissions := some ("55", "2"),
            network := some ("7", "1"), config := some ("PermitRootLogin no", "3") } =
        some a ∧
      a.score = max 0 (100 - min (3 * 5) 30 - min (2 * 2) 20 - 1 * 15) ∧
      (a.level = "critical" ↔ a.score < 40) ∧
      (a.level = "warning" ↔ 40 ≤ a.score ∧ a.score < 70) ∧
      (a.level = "good" ↔ 70 ≤ a.score) :=
  security_audit_score_formula "3" "9" "55" "2" "7" "1" "PermitRootLogin no" "3" 3 2 1
    (by decide) (by decide) (by decide) (by decide) (by decide) (by decide)

/-- C7 counterexample: a package probe whose stdout is not an integer
literal makes the audit raise (`int()` `ValueError`), instead of the counter
being treated as 0 and a structured result being returned. -/
theorem security_audit_nonnumeric_raises :
    security_audit_assessment
        (auditCategoriesOfProbes true true true true
          (some "apt: command not found") none none none none none none none) =
      none := by decide

/-- C7 (amended): an unavailable probe stdout defaults to the counter string
`"0"` and parses to 0; when every counter string the scorer reads is an
integer literal the audit returns a structured result; a non-numeric counter
string instead raises. -/
theorem security_audit_total_on_numeric :
    (∀ c : AuditCategories, auditCountersParse c = true →
        (security_audit_assessment c).isSome = true) ∧
    auditCounter none = "0" ∧ pyInt (auditCounter none) = some 0 := by
  refine ⟨?_, rfl, by decide⟩
  intro c hc
  unfold auditCountersParse at hc
  simp only [Bool.and_eq_true] at hc
  obtain ⟨⟨h1, h2⟩, h3⟩ := hc
  have e1 : (categoryPackagesDeduction c.packages).isSome = true := by
    cases hp : c.packages with
    | none => rfl
    | some p =>
      replace h1 : (pyInt p.1).isSome = true := by rw [hp] at h1; exact h1
      obtain ⟨v, hv⟩ := Option.isSome_iff_exists.mp h1
      simp only [categoryPackagesDeduction, hv, Option.isSome_some]
  have e2 : (categoryPermissionsDeduction c.permissions).isSome = true := by
    cases hp : c.permissions with
    | none => rfl
    | some p =>
      replace h2 : (pyInt p.2).isSome = true := by rw [hp] at h2; exact h2
      obtain ⟨v, hv⟩ := Option.isSome_iff_exists.mp h2
      simp only [categoryPermissionsDeduction, hv, Option.isSome_some]
  have e3 : (categoryNetworkDeduction c.network).isSome = true := by
    cases hp : c.network with
    | none => rfl
    | some p =>
      replace h3 : (pyInt p.2).isSome = true := by rw [hp] at h3; exact h3
      obtain ⟨v, hv⟩ := Option.isSome_iff_exists.mp h3
      simp only [categoryNetworkDeduction, hv, Option.isSome_some]
  obtain ⟨d1, hd1⟩ := Option.isSome_iff_exists.mp e1
  obtain ⟨d2, hd2⟩ := Option.isSome_iff_exists.mp e2
  obtain ⟨d3, hd3⟩ := Option.isSome_iff_exists.mp e3
  simp only [security_audit_assessment, hd1, hd2, hd3, Option.isSome_some]

/-- Witness: the C7 amended totality applied to concrete numeric counters. -/
theorem security_audit_total_on_numeric_witness :
    (security_audit_assessment
        { packages := some ("3", "9"), permissions := some ("55", "2"),
          network := some ("7", "1"), config := none }).isSome = true :=
  security_audit_total_on_numeric.1
    { packages := some ("3", "9"), permissions := some ("55", "2"),
      network := some ("7", "1"), config := none } (by decide)

/-- C8 counterexample: a successful probe whose line does not parse makes
the monitoring loop raise (`ValueError`), instead of the sample being
dropped silently and a structured result returned. -/
theorem health_monitor_parse_failure_aborts :
    collect_metrics_history [⟨true, "garbage"⟩] = .error "ValueError" := rfl

/-- C8 (amended): probes reporting failure are dropped silently and the
remaining samples are collected in order; but a successful probe whose line
fails to parse (wrong field count or non-numeric field) aborts the whole
monitoring call with an uncaught error. -/
theorem collect_metrics_history_behavior :
    (∀ probes : List ProbeResult,
        (∀ p ∈ probes, p.ok = true → (parseMonitorLine p.stdout).isSome = true) →
        collect_metrics_history probes =
          .ok ((probes.filter (fun p => p.ok)).filterMap
                (fun p => parseMonitorLine p.stdout))) ∧
    (∀ probes : List ProbeResult,
        (∃ p ∈ probes, p.ok = true ∧ parseMonitorLine p.stdout = none) →
        ∃ msg, collect_metrics_history probes = .error msg) := by
  constructor
  · intro probes h
    induction probes with
    | nil => rfl
    | cons p rest ih =>
      simp only [collect_metrics_history]
      by_cases hp : p.ok
      · have hs := h p (List.mem_cons_self _ _) hp
        cases hps : parseMonitorLine p.stdout with
        | none => rw [hps] at hs; simp at hs
        | some s =>
          rw [if_pos hp]
          dsimp only
          rw [ih (fun q hq hok => h q (List.mem_cons_of_mem _ hq) hok)]
          simp [List.filter_cons, hp, hps, Except.map]
      · rw [if_neg hp, ih (fun q hq hok => h q (List.mem_cons_of_mem _ hq) hok)]
        simp [List.filter_cons, hp]
  · intro probes h
    induction probes with
    | nil => simp at h
    | cons p rest ih =>
      by_cases hp : p.ok
      · cases hps : parseMonitorLine p.stdout with
        | none =>
          exact ⟨"ValueError", by simp only [collect_metrics_history]; rw [if_pos hp, hps]⟩
        | some s =>
          obtain ⟨q, hq, hqok, hqn⟩ := h
          rcases List.mem_cons.mp hq with rfl | hq'
          · rw [hps] at hqn; cases hqn
          · obtain ⟨msg, hmsg⟩ := ih ⟨q, hq', hqok, hqn⟩
            refine ⟨msg, ?_⟩
            simp only [collect_metrics_history]
            rw [if_pos hp, hps, hmsg]
            rfl
      · obtain ⟨q, hq, hqok, hqn⟩ := h
        rcases List.mem_cons.mp hq with rfl | hq'
        · exact absurd hqok hp
        · obtain ⟨msg, hmsg⟩ := ih ⟨q, hq', hqok, hqn⟩
          refine ⟨msg, ?_⟩
          simp only [collect_metrics_history]
          rw [if_neg hp]
          exact hmsg

/-- Witness: the C8 amended behavior on a concrete series — one good sample
kept, one failed probe dropped silently, and a malformed line aborting a
separate run. -/
theorem collect_metrics_history_behavior_witness :
    (∃ l : List MonitoringSample,
        collect_metrics_history
            [⟨true, "2024-01-01 10:00:00,0.5,37.2,85"⟩, ⟨false, "unreachable"⟩] =
          .ok l ∧ l.length = 1) ∧
    ∃ msg, collect_metrics_history [⟨true, "garbage"⟩] = .error msg :=
  ⟨⟨_, collect_metrics_history_behavior.1
        [⟨true, "2024-01-01 10:00:00,0.5,37.2,85"⟩, ⟨false, "unreachable"⟩]
        (by decide), rfl⟩,
   collect_metrics_history_behavior.2 [⟨true, "garbage"⟩]
     ⟨⟨true, "garbage"⟩, by decide, by decide, by decide⟩⟩

/-- Sanity check of timestamp extraction on an ISO-stamped line. -/
theorem extract_iso_example :
    _extract_timestamp_from_log 2025 "2024-01-01 10:00:00 ERROR disk full" =
      some ⟨2024, 1, 1, 10, 0, 0⟩ := by decide

/-- Sanity check of timestamp extraction on a syslog-stamped line: the year
is assumed to be the current year. -/
theorem extract_syslog_example :
    _extract_timestamp_from_log 2025 "Jan 5 10:20:30 sshd[42]: error" =
      some ⟨2025, 1, 5, 10, 20, 30⟩ := by decide

/-- Sanity check: a line without a recognizable timestamp yields `None`. -/
theorem extract_none_example :
    _extract_timestamp_from_log 2025 "malformed ERROR entry" = none := by decide

/-- C5: on the two-line log text of the claim, the hunt (`grep`, which is
case-sensitive on the raw lines) produces two matches and correlating them
with a 10-second window yields exactly one cluster of strength 2 — but the
pattern analysis categorizes neither line: it lower-cases each line before
testing the case-sensitive regex `ERROR|CRITICAL|FATAL`, so the claimed two
`error` categorizations never happen (the counts stay empty). -/
theorem log_hunter_c5_case_mismatch :
    (_analyze_log_patterns
        "2024-01-01 10:00:00 ERROR disk full\n2024-01-01 10:00:05 ERROR disk full\n").pattern_counts = [] ∧
    (_analyze_log_patterns
        "2024-01-01 10:00:00 ERROR disk full\n2024-01-01 10:00:05 ERROR disk full\n").recent_errors = [] ∧
    (huntMatches 2025 "/var/log/syslog" "ERROR|CRITICAL|FATAL"
        (pySplitlines
          "2024-01-01 10:00:00 ERROR disk full\n2024-01-01 10:00:05 ERROR disk full\n")).length = 2 ∧
    log_hunter_correlations
        (huntMatches 2025 "/var/log/syslog" "ERROR|CRITICAL|FATAL"
          (pySplitlines
            "2024-01-01 10:00:00 ERROR disk full\n2024-01-01 10:00:05 ERROR disk full\n")) 10 =
      .ok [{ primary_event :=
               { log_file := "/var/log/syslog", pattern := "ERROR|CRITICAL|FATAL",
                 line := "2024-01-01 10:00:00 ERROR disk full",
                 timestamp := some ⟨2024, 1, 1, 10, 0, 0⟩ },
             related_events :=
               [{ log_file := "/var/log/syslog", pattern := "ERROR|CRITICAL|FATAL",
                  line := "2024-01-01 10:00:05 ERROR disk full",
                  timestamp := some ⟨2024, 1, 1, 10, 0, 5⟩ }],
             correlation_strength := 2 }] :=
  ⟨by decide, by decide, by decide, rfl⟩

/-- C9: a hunt over a log holding one ISO-stamped line and one line without
a parsable timestamp retains both matches in the raw results (the second
with timestamp `None`), but the correlation step's sort key compares `None`
against a `datetime` and raises `TypeError`, aborting the call instead of
merely excluding the unparseable match. -/
theorem log_hunter_unparseable_timestamp_aborts :
    (huntMatches 2025 "/var/log/syslog" "ERROR|CRITICAL|FATAL"
        (pySplitlines
          "2024-01-01 10:00:00 ERROR disk full\nmalformed ERROR entry\n")).length = 2 ∧
    (huntMatches 2025 "/var/log/syslog" "ERROR|CRITICAL|FATAL"
        (pySplitlines
          "2024-01-01 10:00:00 ERROR disk full\nmalformed ERROR entry\n")).map
        (fun m => m.timestamp) = [some ⟨2024, 1, 1, 10, 0, 0⟩, none] ∧
    correlate_events
        (huntMatches 2025 "/var/log/syslog" "ERROR|CRITICAL|FATAL"
          (pySplitlines
            "2024-01-01 10:00:00 ERROR disk full\nmalformed ERROR entry\n")) 300 =
      .error "TypeError: unorderable types in sort key" :=
  ⟨by decide, by decide, rfl⟩

end AnsibleMcp
